import Mathlib

/-!
Verification of the camera recording-session coordinator of the Guardify-AI
dashboard (UI/Guardify-UI). The definitions below are shallow embeddings of
the TypeScript source: `types/ui.Camera`, the `RecordingStatus` payload, the
status-reconciliation effect of `components/CamerasList.tsx`, the
`formatRecordingTime` helper of `components/cameras/CameraItem.tsx`, the
request constructors of `services/cameras.ts` / `services/api.ts`, and the
event-level behaviour of the camera panel (load, poll, start, stop, delete).
JavaScript numbers that hold epoch times are modelled as `Int`; `Math.floor`
of a division is `Int.fdiv` and the JavaScript `%` operator (remainder with
the sign of the dividend) is `Int.tmod`.
-/

namespace Guardify

/-- Structure `Camera` of `types/ui.ts`: identity data of a camera. -/
structure Camera where
  id : String
  shopId : String
  name : String
deriving DecidableEq, Repr

/-- Interface `RecordingStatus` of `CamerasList.tsx`: one entry of the poll payload. -/
structure RecordingStatus where
  camera_name : String
  started_at : Int
  duration : Int
deriving DecidableEq, Repr

/-- Interface `CameraWithStatus extends Camera` of `CamerasList.tsx`: the camera identity
data together with the two derived status fields. The `extends` of the
TypeScript interface is modelled as a nested `camera` field. -/
structure CameraWithStatus where
  camera : Camera
  isRecording : Bool
  recordingStartedAt : Option Int
deriving DecidableEq, Repr

/-- Projection dropping the status fields (the spec's `toCamera`). -/
def toCamera (c : CameraWithStatus) : Camera := c.camera

/-- Helper for how `fetchCameras` and `handleCameraAdded` tag a plain camera with
`isRecording: false` (and no `recordingStartedAt`) before it enters the list. -/
def tagNotRecording (c : Camera) : CameraWithStatus :=
  { camera := c, isRecording := false, recordingStartedAt := none }

/-- Body of the `prevCameras.map` in the status-reconciliation `useEffect`
(`CamerasList.tsx` lines 76-85): look up the first status whose
`camera_name` equals the camera's `name`; set `isRecording` to whether one
was found and `recordingStartedAt` to its `started_at` (or `undefined`). -/
def updateCameraStatus (recordingStatuses : List RecordingStatus)
    (camera : CameraWithStatus) : CameraWithStatus :=
  let recordingStatus :=
    recordingStatuses.find? (fun status => status.camera_name == camera.camera.name)
  { camera with
    isRecording := recordingStatus.isSome
    recordingStartedAt := recordingStatus.map (fun s => s.started_at) }

/-- The status-reconciliation step of `CamerasList.tsx` (lines 74-87):
`prevCameras.map (updateCameraStatus recordingStatuses)`. -/
def reconcile (prevCameras : List CameraWithStatus)
    (recordingStatuses : List RecordingStatus) : List CameraWithStatus :=
  prevCameras.map (updateCameraStatus recordingStatuses)

/-- Model of `String.prototype.padStart(2, '0')`: pad on the left with `'0'` up to
length 2. -/
def padStart2 (s : String) : String :=
  if s.length < 2 then String.mk (List.replicate (2 - s.length) '0') ++ s else s

/-- Function `formatRecordingTime` of `CameraItem.tsx` (lines 31-36), with `Date.now()`
passed explicitly as `now` (epoch-milliseconds; `startedAt` is epoch-seconds):
`elapsed = Math.floor((now - startedAt * 1000) / 1000)`,
`minutes = Math.floor(elapsed / 60)`, `seconds = elapsed % 60` (JavaScript
remainder, sign of the dividend), rendered as `minutes:seconds.padStart(2,'0')`. -/
def formatRecordingTime (startedAt now : Int) : String :=
  let elapsed := Int.fdiv (now - startedAt * 1000) 1000
  let minutes := Int.fdiv elapsed 60
  let seconds := Int.tmod elapsed 60
  toString minutes ++ ":" ++ padStart2 (toString seconds)

/-- Modelled from the spec (section 4.5 ElapsedTimeFormatter): the formatter
as the specification words it, with `elapsedSeconds` clamped to be at least 0.
Used only to compare the specified behaviour with `formatRecordingTime`. -/
def formatSpec (startedAt now : Int) : String :=
  let elapsedSeconds := max 0 (Int.fdiv (now - startedAt * 1000) 1000)
  let minutes := Int.fdiv elapsedSeconds 60
  let seconds := Int.tmod elapsedSeconds 60
  toString minutes ++ ":" ++ padStart2 (toString seconds)

/-! ### HTTP request layer (services/api.ts, services/cameras.ts)

JSON bodies are modelled as association lists of dynamically typed values,
because JavaScript does not enforce the TypeScript annotations at runtime. -/

/-- A JSON scalar appearing in a request body. -/
inductive JsonValue where
  | num (n : ℚ)
  | str (s : String)
deriving DecidableEq, Repr

inductive HttpMethod where
  | get
  | post
  | delete
deriving DecidableEq, Repr

/-- A dispatched HTTP request: URL path, method, JSON body (when present) and
the value of the `Authorization` header (when set). -/
structure Request where
  path : String
  method : HttpMethod
  body : Option (List (String × JsonValue))
  authHeader : Option String
deriving DecidableEq, Repr

/-- JavaScript truthiness of an optional string: `undefined`, `null` and the
empty string are falsy. -/
def jsTruthy : Option String → Bool
  | none => false
  | some s => !s.isEmpty

/-- JavaScript `a || b` for an optional string `a` and a string default `b`
(used for `response.errorMessage || 'Failed to fetch cameras'`). -/
def jsOrString (v : Option String) (d : String) : String :=
  match v with
  | none => d
  | some s => if s.isEmpty then d else s

/-- Function `makeRequest` of `services/api.ts` (lines 48-50) sets the `Authorization`
header to the token exactly when the token is truthy. -/
def authHeaderOf (token : Option String) : Option String :=
  if jsTruthy token then token else none

namespace CameraService

/-- Method `startRecording` of `services/cameras.ts` (lines 39-56). The TypeScript
signature declares `duration = 30`, `detectionThreshold = 0.8`,
`analysisIterations = 1` and a trailing required `token`; JavaScript does not
enforce the `number` annotations, so each defaultable argument is modelled as
an optional dynamic value (`none` = missing or `undefined`, which selects the
declared default). -/
def startRecording (shopId cameraName : String) (duration : Option ℚ)
    (detectionThreshold : Option JsonValue) (analysisIterations : Option ℚ)
    (token : Option String) : Request :=
  { path := "/shops/" ++ shopId ++ "/recording/start"
    method := .post
    body := some [("camera_name", .str cameraName),
                  ("duration", .num (duration.getD 30)),
                  ("detection_threshold", detectionThreshold.getD (.num 0.8)),
                  ("analysis_iterations", .num (analysisIterations.getD 1))]
    authHeader := authHeaderOf token }

/-- Method `stopRecording` of `services/cameras.ts` (lines 61-68). -/
def stopRecording (shopId cameraName : String) (token : Option String) : Request :=
  { path := "/shops/" ++ shopId ++ "/recording/stop"
    method := .post
    body := some [("camera_name", .str cameraName)]
    authHeader := authHeaderOf token }

/-- Method `deleteCamera` of `services/cameras.ts` (lines 30-34). -/
def deleteCamera (shopId cameraId : String) (token : Option String) : Request :=
  { path := "/shops/" ++ shopId ++ "/cameras/" ++ cameraId
    method := .delete
    body := none
    authHeader := authHeaderOf token }

/-- Method `getShopCameras` of `services/cameras.ts` (lines 9-13). -/
def getShopCameras (shopId : String) (token : Option String) : Request :=
  { path := "/shops/" ++ shopId ++ "/cameras"
    method := .get
    body := none
    authHeader := authHeaderOf token }

/-- Method `getRecordingStatus` of `services/cameras.ts` (lines 73-77). -/
def getRecordingStatus (shopId : String) (token : Option String) : Request :=
  { path := "/shops/" ++ shopId ++ "/recording/status"
    method := .get
    body := none
    authHeader := authHeaderOf token }

end CameraService

/-- The call `cameraService.startRecording(shopId, cameraName, 30, token)` of
`handleStartRecording` (`CamerasList.tsx` line 111): four positional
arguments applied to the six-parameter signature, so `30` binds to
`duration`, the auth token string binds to `detectionThreshold`, and
`analysisIterations` and `token` are left `undefined`. -/
def dispatchStartRequest (shopId cameraName token : String) : Request :=
  CameraService.startRecording shopId cameraName (some 30) (some (.str token)) none none

/-! ### Event-level model of the camera panel

`CamerasList.tsx` together with `CameraItem.tsx` and `DeleteCameraModal.tsx`
form a single-threaded event loop: network responses and user clicks are the
events, and each event handler is a function on the component state. The
state machine below embeds those handlers. A network call together with its
`await`ed continuation is one event for the two fetch helpers (which only
set state when they settle); start/stop/delete commands are split into a
dispatch event and a settle event, because their in-flight window is what
the mutual-exclusion claims are about. -/

/-- Wire format `camera_id` / `shop_id` / `camera_name` (`types/api.ts`);
`camera_name` is optional there. -/
structure ApiCamera where
  camera_id : String
  shop_id : String
  camera_name : Option String
deriving DecidableEq, Repr

/-- Function `mapApiCamera` of `utils/mappers.ts` (lines 63-67). -/
def mapApiCamera (c : ApiCamera) : Camera :=
  { id := c.camera_id, shopId := c.shop_id, name := c.camera_name.getD "" }

/-- Function `mapApiCameras` of `utils/mappers.ts` (lines 106-107). -/
def mapApiCameras (cameras : List ApiCamera) : List Camera :=
  cameras.map mapApiCamera

/-- Outcome of an awaited `makeRequest` call as the caller observes it:
either the promise rejected (network/parse error, `thrown`), or a response
`{ result, errorMessage }` arrived, where `result` may be `null` and
`errorMessage` may be `null` or a string. -/
inductive FetchOutcome (α : Type) where
  | ok (result : Option α) (errorMessage : Option String)
  | thrown
deriving DecidableEq, Repr

/-- A failed fetch in the sense of the spec: a network/parse error or a
response carrying a (truthy) `errorMessage`. -/
def FetchOutcome.isFailure {α : Type} : FetchOutcome α → Bool
  | .thrown => true
  | .ok _ errorMessage => jsTruthy errorMessage

/-- One of the three commands that can be in flight from the camera panel. -/
inductive Command where
  | start (cameraName : String)
  | stop (cameraName : String)
  | delete (cameraId : String)
deriving DecidableEq, Repr

def Command.isStartStop : Command → Bool
  | .start _ => true
  | .stop _ => true
  | .delete _ => false

/-- Remove the first occurrence of an element (one dispatched command settles). -/
def removeOne (cmd : Command) : List Command → List Command
  | [] => []
  | c :: cs => if c = cmd then cs else c :: removeOne cmd cs

/-- Number of start/stop commands in a list of in-flight commands. -/
def startStopCount (l : List Command) : Nat :=
  (l.filter Command.isStartStop).length

/-- The state of the camera panel: the `useState` cells of `CamerasList.tsx`
(`cameras`, `recordingStatuses`, `error`, `operationInProgress`) and of its
children (`showDeleteModal`, one per rendered `CameraItem`, keyed like the
React list by camera id), plus two histories that make the claims statable:
the commands dispatched but not yet settled, and the log of issued network
requests. -/
structure PanelState where
  cameras : List CameraWithStatus
  recordingStatuses : List RecordingStatus
  errorMsg : Option String
  operationInProgress : Option String
  openDeleteModals : List String
  inFlight : List Command
  issuedRequests : List Request
deriving DecidableEq, Repr

/-- The initial `useState` values of `CamerasList.tsx` (lines 27-32). -/
def initState : PanelState :=
  { cameras := []
    recordingStatuses := []
    errorMsg := none
    operationInProgress := none
    openDeleteModals := []
    inFlight := []
    issuedRequests := [] }

/-- Model of `setRecordingStatuses` together with the `useEffect` on
`[recordingStatuses]` (`CamerasList.tsx` lines 74-87): React runs the effect
before the next event is handled, so a status update and the reconciliation
it triggers form one atomic state change. -/
def setStatuses (s : List RecordingStatus) (st : PanelState) : PanelState :=
  { st with recordingStatuses := s, cameras := reconcile st.cameras s }

/-- Function `fetchRecordingStatus` of `CamerasList.tsx` (lines 56-71) and the
reconciliation effect it triggers: early-return on a falsy token; otherwise
issue the GET and, on `response.result && !response.errorMessage`, store the
result, else (error response or thrown) reset the status set to `[]`. -/
def applyFetchRecordingStatus (shopId token : String)
    (o : FetchOutcome (List RecordingStatus)) (st : PanelState) : PanelState :=
  if token = "" then st
  else
    let st := { st with issuedRequests :=
      CameraService.getRecordingStatus shopId (some token) :: st.issuedRequests }
    match o with
    | .thrown => setStatuses [] st
    | .ok result errorMessage =>
        if result.isSome && !(jsTruthy errorMessage) then
          setStatuses (result.getD []) st
        else
          setStatuses [] st

/-- Function `fetchCameras` of `CamerasList.tsx` (lines 36-53): early-return on a
falsy token; `setError(null)`; issue the GET; on success replace the camera
list with the mapped cameras tagged `isRecording: false`; on an error
response set the error to `errorMessage || 'Failed to fetch cameras'`; on a
thrown error set it to `'Failed to load cameras'`. The camera list is not
touched on either failure path. -/
def applyFetchCameras (shopId token : String)
    (o : FetchOutcome (List ApiCamera)) (st : PanelState) : PanelState :=
  if token = "" then st
  else
    let st := { st with errorMsg := none, issuedRequests :=
      CameraService.getShopCameras shopId (some token) :: st.issuedRequests }
    match o with
    | .thrown => { st with errorMsg := some "Failed to load cameras" }
    | .ok result errorMessage =>
        if result.isSome && !(jsTruthy errorMessage) then
          { st with cameras := (mapApiCameras (result.getD [])).map tagNotRecording }
        else
          { st with errorMsg := some (jsOrString errorMessage "Failed to fetch cameras") }

/-- A click on a camera's Start button (`CameraItem.tsx` lines 78-93 plus
`handleStartRecording`, `CamerasList.tsx` lines 106-125). The button is
disabled while `camera.isRecording || operationInProgress === camera.name`;
an enabled click runs the handler, which returns early unless the token is
truthy and no operation is in progress, and otherwise sets the lock and
dispatches the start request. -/
def applyClickStart (shopId token : String) (name : String) (st : PanelState) : PanelState :=
  if ∃ c ∈ st.cameras, c.camera.name = name ∧ c.isRecording = false ∧
      st.operationInProgress ≠ some name then
    if token = "" ∨ st.operationInProgress ≠ none then st
    else
      { st with operationInProgress := some name
                inFlight := Command.start name :: st.inFlight
                issuedRequests := dispatchStartRequest shopId name token :: st.issuedRequests }
  else st

/-- Continuation shared by `handleStartRecording` and `handleStopRecording`
after their command request settles with outcome `o`: on a truthy result
with no error message they run `await fetchRecordingStatus()` (whose own
outcome is `o2`); on failure they only alert. -/
def refreshAfterCommand (shopId token : String) (o : FetchOutcome String)
    (o2 : FetchOutcome (List RecordingStatus)) (st : PanelState) : PanelState :=
  match o with
  | .thrown => st
  | .ok result errorMessage =>
      if jsTruthy result && !(jsTruthy errorMessage) then
        applyFetchRecordingStatus shopId token o2 st
      else st

/-- The start request settles (`handleStartRecording` resumes): the
success path refreshes the recording status, and the `finally` clause
clears the lock either way. -/
def applySettleStart (shopId token : String) (name : String)
    (o : FetchOutcome String) (o2 : FetchOutcome (List RecordingStatus))
    (st : PanelState) : PanelState :=
  if Command.start name ∈ st.inFlight then
    let st1 := refreshAfterCommand shopId token o o2 st
    { st1 with inFlight := removeOne (Command.start name) st1.inFlight
               operationInProgress := none }
  else st

/-- A click on a camera's Stop button (`CameraItem.tsx` lines 95-110 plus
`handleStopRecording`, `CamerasList.tsx` lines 127-146); disabled while
`!camera.isRecording || operationInProgress === camera.name`. -/
def applyClickStop (shopId token : String) (name : String) (st : PanelState) : PanelState :=
  if ∃ c ∈ st.cameras, c.camera.name = name ∧ c.isRecording = true ∧
      st.operationInProgress ≠ some name then
    if token = "" ∨ st.operationInProgress ≠ none then st
    else
      { st with operationInProgress := some name
                inFlight := Command.stop name :: st.inFlight
                issuedRequests := CameraService.stopRecording shopId name (some token)
                  :: st.issuedRequests }
  else st

/-- The stop request settles, symmetric to `applySettleStart`. -/
def applySettleStop (shopId token : String) (name : String)
    (o : FetchOutcome String) (o2 : FetchOutcome (List RecordingStatus))
    (st : PanelState) : PanelState :=
  if Command.stop name ∈ st.inFlight then
    let st1 := refreshAfterCommand shopId token o o2 st
    { st1 with inFlight := removeOne (Command.stop name) st1.inFlight
               operationInProgress := none }
  else st

/-- A click on a camera's trash button (`CameraItem.tsx` lines 112-123):
disabled while `camera.isRecording || operationInProgress === camera.name`;
an enabled click only opens that camera's `DeleteCameraModal`. -/
def applyClickDelete (id : String) (st : PanelState) : PanelState :=
  if ∃ c ∈ st.cameras, c.camera.id = id ∧ c.isRecording = false ∧
      st.operationInProgress ≠ some c.camera.name then
    { st with openDeleteModals :=
        if id ∈ st.openDeleteModals then st.openDeleteModals else id :: st.openDeleteModals }
  else st

/-- Cancel/close of a camera's `DeleteCameraModal`. -/
def applyCancelDelete (id : String) (st : PanelState) : PanelState :=
  { st with openDeleteModals := st.openDeleteModals.filter (fun x => !(x == id)) }

/-- The modal's Delete Camera button (`DeleteCameraModal.tsx` lines 62-67,
never disabled) invoking `handleDeleteConfirm` (`CameraItem.tsx` lines
38-54): requires the item to be rendered with its modal open; the handler
returns early only on a falsy token, then dispatches the delete request
using the rendered camera's `shopId` and `id`. It neither checks nor sets
`operationInProgress`, and does not re-check `isRecording`. -/
def applyConfirmDelete (token : String) (id : String) (st : PanelState) : PanelState :=
  match st.cameras.find? (fun c => c.camera.id == id) with
  | none => st
  | some c =>
      if id ∈ st.openDeleteModals then
        if token = "" then st
        else
          { st with inFlight := Command.delete id :: st.inFlight
                    issuedRequests := CameraService.deleteCamera c.camera.shopId id (some token)
                      :: st.issuedRequests }
      else st

/-- The delete request settles (`handleDeleteConfirm` resumes): on success
(`response.result !== undefined && !response.errorMessage`; `null` and
`undefined` results are both modelled as `none`) it removes the camera from
the list (`handleDeleteCamera`, `CamerasList.tsx` lines 156-158) and closes
the modal; on failure it only alerts. -/
def applySettleDelete (id : String) (o : FetchOutcome String) (st : PanelState) : PanelState :=
  if Command.delete id ∈ st.inFlight then
    let st1 :=
      match o with
      | .thrown => st
      | .ok result errorMessage =>
          if result.isSome && !(jsTruthy errorMessage) then
            { st with cameras := st.cameras.filter (fun c => !(c.camera.id == id))
                      openDeleteModals := st.openDeleteModals.filter (fun x => !(x == id)) }
          else st
    { st1 with inFlight := removeOne (Command.delete id) st1.inFlight }
  else st

/-- Callback `handleCameraAdded` (`CamerasList.tsx` lines 148-154): the add-camera
modal's success callback appends the new camera tagged not-recording. -/
def applyCameraAdded (c : Camera) (st : PanelState) : PanelState :=
  { st with cameras := st.cameras ++ [tagNotRecording c] }

/-- An event of the camera panel's event loop. -/
inductive UIEvent where
  | camerasFetch (o : FetchOutcome (List ApiCamera))
  | statusFetch (o : FetchOutcome (List RecordingStatus))
  | clickStart (cameraName : String)
  | settleStart (cameraName : String) (o : FetchOutcome String)
      (o2 : FetchOutcome (List RecordingStatus))
  | clickStop (cameraName : String)
  | settleStop (cameraName : String) (o : FetchOutcome String)
      (o2 : FetchOutcome (List RecordingStatus))
  | clickDelete (cameraId : String)
  | cancelDelete (cameraId : String)
  | confirmDelete (cameraId : String)
  | settleDelete (cameraId : String) (o : FetchOutcome String)
  | cameraAdded (camera : Camera)
deriving DecidableEq, Repr

def applyEvent (shopId token : String) : UIEvent → PanelState → PanelState
  | .camerasFetch o => applyFetchCameras shopId token o
  | .statusFetch o => applyFetchRecordingStatus shopId token o
  | .clickStart name => applyClickStart shopId token name
  | .settleStart name o o2 => applySettleStart shopId token name o o2
  | .clickStop name => applyClickStop shopId token name
  | .settleStop name o o2 => applySettleStop shopId token name o o2
  | .clickDelete id => applyClickDelete id
  | .cancelDelete id => applyCancelDelete id
  | .confirmDelete id => applyConfirmDelete token id
  | .settleDelete id o => applySettleDelete id o
  | .cameraAdded c => applyCameraAdded c

/-- Run a sequence of events from a state. -/
def run (shopId token : String) (es : List UIEvent) (st : PanelState) : PanelState :=
  es.foldl (fun s e => applyEvent shopId token e s) st

/-- A state of the camera panel reachable from the initial state. -/
def Reachable (shopId token : String) (st : PanelState) : Prop :=
  ∃ es : List UIEvent, run shopId token es initState = st

/-! ### Concrete inputs used in witnesses and counterexamples -/

def camA : Camera := { id := "c1", shopId := "shop1", name := "Cam1" }

def camB : Camera := { id := "c2", shopId := "shop1", name := "Cam2" }

def apiCamA : ApiCamera := { camera_id := "c1", shop_id := "shop1", camera_name := some "Cam1" }

def apiCamB : ApiCamera := { camera_id := "c2", shop_id := "shop1", camera_name := some "Cam2" }

def statusA : RecordingStatus := { camera_name := "Cam1", started_at := 5, duration := 30 }

def statusA9 : RecordingStatus := { camera_name := "Cam1", started_at := 9, duration := 30 }

/-- Reconciled entry for `camA` after the poll reported `statusA`. -/
def camARec : CameraWithStatus :=
  { camera := camA, isRecording := true, recordingStartedAt := some 5 }

/-- Trace refuting shop-wide mutual exclusion of start/stop/delete: load two
cameras, open the delete dialog for Cam2, dispatch a start for Cam1 (taking
the lock), then confirm the delete for Cam2 while the start is still in
flight — `handleDeleteConfirm` never consults the lock. -/
def mutexTrace : List UIEvent :=
  [.camerasFetch (.ok (some [apiCamA, apiCamB]) none),
   .clickDelete "c2",
   .clickStart "Cam1",
   .confirmDelete "c2"]

/-- Trace reaching a state in which Cam1's delete dialog is open while Cam1
is recording: the dialog was opened before a poll reported the recording,
and nothing closes or re-checks it. -/
def staleModalTrace : List UIEvent :=
  [.camerasFetch (.ok (some [apiCamA]) none),
   .clickDelete "c1",
   .statusFetch (.ok (some [statusA]) none)]

/-- A panel state with one recording camera (delete-guard witness). -/
def stC6 : PanelState := { initState with cameras := [camARec] }

/-- A panel state with one recording camera and its status (poll-failure
witness). -/
def stC7 : PanelState :=
  { initState with cameras := [camARec], recordingStatuses := [statusA] }

/-- A panel state holding a previously loaded camera list (camera-load
failure inputs). -/
def stC8 : PanelState := { initState with cameras := [tagNotRecording camA] }

/-- Camera list with a single camera, for the duplicate-status claim. -/
def camsC10 : List CameraWithStatus := [tagNotRecording camA]

/-- Status list with two entries for the same camera name. -/
def statsC10 : List RecordingStatus := [statusA, statusA9]

section ReconcileLemmas

/-- Reconciliation leaves the identity data unchanged. -/
theorem updateCameraStatus_camera (S : List RecordingStatus) (c : CameraWithStatus) :
    (updateCameraStatus S c).camera = c.camera := rfl

theorem updateCameraStatus_isRecording (S : List RecordingStatus) (c : CameraWithStatus) :
    (updateCameraStatus S c).isRecording =
      (S.find? (fun s => s.camera_name == c.camera.name)).isSome := rfl

theorem updateCameraStatus_startedAt (S : List RecordingStatus) (c : CameraWithStatus) :
    (updateCameraStatus S c).recordingStartedAt =
      (S.find? (fun s => s.camera_name == c.camera.name)).map (fun s => s.started_at) := rfl

theorem length_reconcile (C : List CameraWithStatus) (S : List RecordingStatus) :
    (reconcile C S).length = C.length := List.length_map C (updateCameraStatus S)

theorem reconcile_get (C : List CameraWithStatus) (S : List RecordingStatus)
    (i : Fin C.length) :
    (reconcile C S).get ⟨i.1, by simp only [length_reconcile]; exact i.2⟩ =
      updateCameraStatus S (C.get i) := by
  simp [reconcile, List.get_eq_getElem, List.getElem_map]

/-- Pointwise specification of `updateCameraStatus`: the recording flag is
set iff some status matches the camera's name; when it is set, the start
time is that of a matching status; when it is clear, the start time is
`none`. -/
theorem updateCameraStatus_spec (S : List RecordingStatus) (c : CameraWithStatus) :
    ((updateCameraStatus S c).isRecording = true ↔
        ∃ s ∈ S, s.camera_name = c.camera.name) ∧
    ((updateCameraStatus S c).isRecording = true →
        ∃ s ∈ S, s.camera_name = c.camera.name ∧
          (updateCameraStatus S c).recordingStartedAt = some s.started_at) ∧
    ((updateCameraStatus S c).isRecording = false →
        (updateCameraStatus S c).recordingStartedAt = none) := by
  refine ⟨?_, ?_, ?_⟩
  · rw [updateCameraStatus_isRecording, List.find?_isSome]
    constructor
    · rintro ⟨s, hs, hps⟩
      exact ⟨s, hs, by simpa using hps⟩
    · rintro ⟨s, hs, hps⟩
      exact ⟨s, hs, by simpa using hps⟩
  · intro h
    rw [updateCameraStatus_isRecording] at h
    obtain ⟨s, hfind⟩ := Option.isSome_iff_exists.mp h
    refine ⟨s, List.mem_of_find?_eq_some hfind, ?_, ?_⟩
    · simpa using List.find?_some hfind
    · rw [updateCameraStatus_startedAt, hfind]
      rfl
  · intro h
    rw [updateCameraStatus_isRecording] at h
    rw [updateCameraStatus_startedAt]
    rcases hf : S.find? (fun s => s.camera_name == c.camera.name) with _ | s
    · rw [hf]
      rfl
    · rw [hf] at h
      simp at h

/-- A `List.find?` call returns the earliest element satisfying the predicate: if
position `j` satisfies `p` and every earlier position does not, `find?`
returns the element at `j`. -/
theorem find?_eq_get_of_first {α : Type} (p : α → Bool) (l : List α)
    (j : Nat) (hj : j < l.length) (hpj : p (l.get ⟨j, hj⟩) = true)
    (hmin : ∀ k, (hk : k < j) → p (l.get ⟨k, Nat.lt_trans hk hj⟩) = false) :
    l.find? p = some (l.get ⟨j, hj⟩) := by
  induction l generalizing j with
  | nil => exact absurd hj (Nat.not_lt_zero j)
  | cons a l ih =>
    cases j with
    | zero =>
      simp only [List.get] at hpj
      simp [List.find?, hpj]
    | succ j =>
      have ha : p a = false := hmin 0 (Nat.succ_pos j)
      simp only [List.find?, ha]
      exact ih j (Nat.lt_of_succ_lt_succ hj) hpj
        (fun k hk => hmin (k + 1) (Nat.succ_lt_succ hk))

end ReconcileLemmas

section MachineLemmas

theorem reconcile_nil_isRecording (C : List CameraWithStatus) :
    ∀ c ∈ reconcile C [], c.isRecording = false := by
  intro c hc
  obtain ⟨c0, _, rfl⟩ := List.mem_map.mp hc
  rfl

theorem reconcile_nil_toCamera (C : List CameraWithStatus) :
    (reconcile C []).map toCamera = C.map toCamera := by
  simp only [reconcile, List.map_map]
  rfl

theorem startStopCount_cons (c : Command) (l : List Command) :
    startStopCount (c :: l) =
      (if c.isStartStop then 1 else 0) + startStopCount l := by
  simp only [startStopCount, List.filter_cons]
  split
  · simp [Nat.add_comm]
  · simp

theorem startStopCount_removeOne_delete (c : Command) (l : List Command)
    (hc : c.isStartStop = false) :
    startStopCount (removeOne c l) = startStopCount l := by
  induction l with
  | nil => rfl
  | cons a l ih =>
    by_cases ha : a = c
    · subst ha
      simp [removeOne, startStopCount_cons, hc]
    · simp [removeOne, ha, startStopCount_cons, ih]

theorem startStopCount_removeOne_startStop (c : Command) (l : List Command)
    (hc : c.isStartStop = true) (hm : c ∈ l) :
    startStopCount l = startStopCount (removeOne c l) + 1 := by
  induction l with
  | nil => cases hm
  | cons a l ih =>
    by_cases ha : a = c
    · subst ha
      simp [removeOne, startStopCount_cons, hc, Nat.add_comm]
    · have hm' : c ∈ l := by
        rcases List.mem_cons.mp hm with h | h
        · exact absurd h.symm ha
        · exact h
      simp only [removeOne, if_neg ha, startStopCount_cons, ih hm']
      omega

theorem applyFetchRecordingStatus_frame (shopId token : String)
    (o : FetchOutcome (List RecordingStatus)) (st : PanelState) :
    (applyFetchRecordingStatus shopId token o st).inFlight = st.inFlight ∧
    (applyFetchRecordingStatus shopId token o st).operationInProgress
      = st.operationInProgress := by
  unfold applyFetchRecordingStatus
  split
  · exact ⟨rfl, rfl⟩
  · cases o with
    | thrown => exact ⟨rfl, rfl⟩
    | ok r em =>
        dsimp only
        split
        · exact ⟨rfl, rfl⟩
        · exact ⟨rfl, rfl⟩

theorem applyFetchCameras_frame (shopId token : String)
    (o : FetchOutcome (List ApiCamera)) (st : PanelState) :
    (applyFetchCameras shopId token o st).inFlight = st.inFlight ∧
    (applyFetchCameras shopId token o st).operationInProgress
      = st.operationInProgress := by
  unfold applyFetchCameras
  split
  · exact ⟨rfl, rfl⟩
  · cases o with
    | thrown => exact ⟨rfl, rfl⟩
    | ok r em =>
        dsimp only
        split
        · exact ⟨rfl, rfl⟩
        · exact ⟨rfl, rfl⟩

theorem refreshAfterCommand_frame (shopId token : String) (o : FetchOutcome String)
    (o2 : FetchOutcome (List RecordingStatus)) (st : PanelState) :
    (refreshAfterCommand shopId token o o2 st).inFlight = st.inFlight ∧
    (refreshAfterCommand shopId token o o2 st).operationInProgress
      = st.operationInProgress := by
  unfold refreshAfterCommand
  cases o with
  | thrown => exact ⟨rfl, rfl⟩
  | ok r em =>
      dsimp only
      split
      · exact applyFetchRecordingStatus_frame shopId token o2 st
      · exact ⟨rfl, rfl⟩

theorem applyConfirmDelete_frame (token id : String) (st : PanelState) :
    ((applyConfirmDelete token id st).inFlight = st.inFlight ∨
      (applyConfirmDelete token id st).inFlight = Command.delete id :: st.inFlight) ∧
    (applyConfirmDelete token id st).operationInProgress = st.operationInProgress := by
  unfold applyConfirmDelete
  split
  · exact ⟨Or.inl rfl, rfl⟩
  · split
    · split
      · exact ⟨Or.inl rfl, rfl⟩
      · exact ⟨Or.inr rfl, rfl⟩
    · exact ⟨Or.inl rfl, rfl⟩

theorem applySettleDelete_frame (id : String) (o : FetchOutcome String) (st : PanelState) :
    ((applySettleDelete id o st).inFlight = st.inFlight ∨
      (applySettleDelete id o st).inFlight = removeOne (Command.delete id) st.inFlight) ∧
    (applySettleDelete id o st).operationInProgress = st.operationInProgress := by
  unfold applySettleDelete
  split
  · cases o with
    | thrown => exact ⟨Or.inr rfl, rfl⟩
    | ok r em =>
        dsimp only
        split
        · exact ⟨Or.inr rfl, rfl⟩
        · exact ⟨Or.inr rfl, rfl⟩
  · exact ⟨Or.inl rfl, rfl⟩

/-- The single-lock discipline of the camera panel is preserved by every
event: at most one start/stop command is in flight, and none is when the
lock is free. -/
theorem lockInv_applyEvent (shopId token : String) (e : UIEvent) (st : PanelState)
    (h1 : startStopCount st.inFlight ≤ 1)
    (h2 : st.operationInProgress = none → startStopCount st.inFlight = 0) :
    startStopCount (applyEvent shopId token e st).inFlight ≤ 1 ∧
    ((applyEvent shopId token e st).operationInProgress = none →
      startStopCount (applyEvent shopId token e st).inFlight = 0) := by
  cases e with
  | camerasFetch o =>
      obtain ⟨hf, ho⟩ := applyFetchCameras_frame shopId token o st
      simp only [applyEvent]
      rw [hf, ho]
      exact ⟨h1, h2⟩
  | statusFetch o =>
      obtain ⟨hf, ho⟩ := applyFetchRecordingStatus_frame shopId token o st
      simp only [applyEvent]
      rw [hf, ho]
      exact ⟨h1, h2⟩
  | clickStart name =>
      simp only [applyEvent]
      unfold applyClickStart
      split
      · split
        · exact ⟨h1, h2⟩
        · rename_i hguard hinner
          have hop : st.operationInProgress = none := by
            by_contra hop
            exact hinner (Or.inr hop)
          have hc0 := h2 hop
          have hone : (if (Command.start name).isStartStop then 1 else 0) = 1 := rfl
          dsimp only
          constructor
          · rw [startStopCount_cons]
            omega
          · intro hnone
            exact absurd hnone (by simp)
      · exact ⟨h1, h2⟩
  | settleStart name o o2 =>
      simp only [applyEvent]
      unfold applySettleStart
      split
      · rename_i hmem
        obtain ⟨hf, -⟩ := refreshAfterCommand_frame shopId token o o2 st
        have hdec := startStopCount_removeOne_startStop (Command.start name)
          st.inFlight rfl hmem
        dsimp only
        rw [hf]
        exact ⟨by omega, fun _ => by omega⟩
      · exact ⟨h1, h2⟩
  | clickStop name =>
      simp only [applyEvent]
      unfold applyClickStop
      split
      · split
        · exact ⟨h1, h2⟩
        · rename_i hguard hinner
          have hop : st.operationInProgress = none := by
            by_contra hop
            exact hinner (Or.inr hop)
          have hc0 := h2 hop
          have hone : (if (Command.stop name).isStartStop then 1 else 0) = 1 := rfl
          dsimp only
          constructor
          · rw [startStopCount_cons]
            omega
          · intro hnone
            exact absurd hnone (by simp)
      · exact ⟨h1, h2⟩
  | settleStop name o o2 =>
      simp only [applyEvent]
      unfold applySettleStop
      split
      · rename_i hmem
        obtain ⟨hf, -⟩ := refreshAfterCommand_frame shopId token o o2 st
        have hdec := startStopCount_removeOne_startStop (Command.stop name)
          st.inFlight rfl hmem
        dsimp only
        rw [hf]
        exact ⟨by omega, fun _ => by omega⟩
      · exact ⟨h1, h2⟩
  | clickDelete id =>
      simp only [applyEvent]
      unfold applyClickDelete
      split
      · exact ⟨h1, h2⟩
      · exact ⟨h1, h2⟩
  | cancelDelete id =>
      exact ⟨h1, h2⟩
  | confirmDelete id =>
      obtain ⟨hf, ho⟩ := applyConfirmDelete_frame token id st
      simp only [applyEvent]
      rw [ho]
      rcases hf with hf | hf <;> rw [hf]
      · exact ⟨h1, h2⟩
      · rw [startStopCount_cons]
        have hz : (if (Command.delete id).isStartStop then 1 else 0) = 0 := rfl
        exact ⟨by omega, fun hop => by have := h2 hop; omega⟩
  | settleDelete id o =>
      obtain ⟨hf, ho⟩ := applySettleDelete_frame id o st
      have heq := startStopCount_removeOne_delete (Command.delete id) st.inFlight rfl
      simp only [applyEvent]
      rw [ho]
      rcases hf with hf | hf <;> rw [hf]
      · exact ⟨h1, h2⟩
      · rw [heq]
        exact ⟨h1, h2⟩
  | cameraAdded c =>
      exact ⟨h1, h2⟩

/-- The lock discipline holds along every run. -/
theorem lockInv_run (shopId token : String) (es : List UIEvent) (st : PanelState)
    (h1 : startStopCount st.inFlight ≤ 1)
    (h2 : st.operationInProgress = none → startStopCount st.inFlight = 0) :
    startStopCount (run shopId token es st).inFlight ≤ 1 ∧
    ((run shopId token es st).operationInProgress = none →
      startStopCount (run shopId token es st).inFlight = 0) := by
  induction es generalizing st with
  | nil => exact ⟨h1, h2⟩
  | cons e es ih =>
      have h := lockInv_applyEvent shopId token e st h1 h2
      exact ih (applyEvent shopId token e st) h.1 h.2

end MachineLemmas

section Claims

/-- Claim C1: for every camera list, status list and index `i`, the
reconciled camera at `i` has `isRecording = true` iff some status in `S`
has `camera_name` equal to that camera's `name`; when it does, its
`recordingStartedAt` is the matching status's `started_at`, and otherwise
it is `none` (`undefined`). -/
theorem reconcile_correct (C : List CameraWithStatus) (S : List RecordingStatus)
    (i : Fin C.length) :
    (((reconcile C S).get ⟨i.1, by simp only [length_reconcile]; exact i.2⟩).isRecording = true ↔
        ∃ s ∈ S, s.camera_name = (C.get i).camera.name) ∧
    (((reconcile C S).get ⟨i.1, by simp only [length_reconcile]; exact i.2⟩).isRecording = true →
        ∃ s ∈ S, s.camera_name = (C.get i).camera.name ∧
          ((reconcile C S).get
              ⟨i.1, by simp only [length_reconcile]; exact i.2⟩).recordingStartedAt
            = some s.started_at) ∧
    (((reconcile C S).get ⟨i.1, by simp only [length_reconcile]; exact i.2⟩).isRecording = false →
        ((reconcile C S).get
            ⟨i.1, by simp only [length_reconcile]; exact i.2⟩).recordingStartedAt
          = none) := by
  rw [reconcile_get]
  exact updateCameraStatus_spec S (C.get i)

/-- Claim C5: reconciling a second time with the same status list changes
nothing; the camera projection of `reconcile C S` (re-tagged not-recording,
as every plain camera is when it enters the list) reconciles to the same
result. -/
theorem reconcile_idempotent (C : List CameraWithStatus) (S : List RecordingStatus) :
    reconcile (((reconcile C S).map toCamera).map tagNotRecording) S = reconcile C S := by
  simp only [reconcile, List.map_map]
  rfl

/-- Claim C9: reconciliation preserves the list's length and order and the
identity fields (`id`, `shopId`, `name`) of every camera; only the status
fields are recomputed. -/
theorem reconcile_frame (C : List CameraWithStatus) (S : List RecordingStatus) :
    (reconcile C S).length = C.length ∧
    ∀ i : Fin C.length,
      ((reconcile C S).get ⟨i.1, by simp only [length_reconcile]; exact i.2⟩).camera.id
          = (C.get i).camera.id ∧
      ((reconcile C S).get ⟨i.1, by simp only [length_reconcile]; exact i.2⟩).camera.shopId
          = (C.get i).camera.shopId ∧
      ((reconcile C S).get ⟨i.1, by simp only [length_reconcile]; exact i.2⟩).camera.name
          = (C.get i).camera.name := by
  refine ⟨length_reconcile C S, fun i => ?_⟩
  rw [reconcile_get]
  exact ⟨rfl, rfl, rfl⟩

/-- Claim C10: when several statuses carry the same `camera_name`, matching
some camera's name, reconciliation annotates that camera with the
earliest-positioned matching status of `S`: its `started_at` is taken and
later matches are ignored. -/
theorem reconcile_first_match (C : List CameraWithStatus) (S : List RecordingStatus)
    (i : Fin C.length) (j : Nat) (hj : j < S.length)
    (hmatch : (S.get ⟨j, hj⟩).camera_name = (C.get i).camera.name)
    (hfirst : ∀ k, (hk : k < j) →
      (S.get ⟨k, Nat.lt_trans hk hj⟩).camera_name ≠ (C.get i).camera.name) :
    ((reconcile C S).get
        ⟨i.1, by simp only [length_reconcile]; exact i.2⟩).recordingStartedAt
      = some (S.get ⟨j, hj⟩).started_at := by
  rw [reconcile_get, updateCameraStatus_startedAt,
      find?_eq_get_of_first _ _ j hj (by simpa using hmatch)
        (fun k hk => by simpa using hfirst k hk)]
  rfl

/-- Witness for C10: with two statuses for Cam1 (`started_at` 5 then 9),
reconciliation records 5. -/
theorem reconcile_first_match_witness :
    ((reconcile camsC10 statsC10).get ⟨0, by decide⟩).recordingStartedAt = some 5 :=
  reconcile_first_match camsC10 statsC10 ⟨0, by decide⟩ 0 (by decide) (by decide)
    (fun k hk => absurd hk (Nat.not_lt_zero k))

/-- Claim C4 counterexample: the code does not clamp the elapsed time to be
at least 0. At `startedAt = 2` (seconds), `now = 0` (milliseconds) the code
renders "-1:-2" while the clamped formula of the claim renders "0:00". -/
theorem formatRecordingTime_clamp_counterexample :
    formatRecordingTime 2 0 = "-1:-2" ∧ formatSpec 2 0 = "0:00" ∧
    formatRecordingTime 2 0 ≠ formatSpec 2 0 := by decide

/-- Claim C4 as amended: whenever `now` is not before `startedAt * 1000`
(the only situation the remote service produces), the code agrees with the
claimed formula, and `startedAt = now − 125 s` renders "2:05"; the clamping
the claim postulates is absent from the code, so for `now` earlier than
`startedAt * 1000` negative components are rendered instead of "0:00". -/
theorem formatRecordingTime_correct (startedAt now : Int)
    (h : startedAt * 1000 ≤ now) :
    formatRecordingTime startedAt now = formatSpec startedAt now ∧
    (now - startedAt * 1000 = 125000 → formatRecordingTime startedAt now = "2:05") := by
  have h0 : (0 : Int) ≤ now - startedAt * 1000 := by omega
  have hel : (0 : Int) ≤ Int.fdiv (now - startedAt * 1000) 1000 :=
    Int.fdiv_nonneg h0 (by norm_num)
  constructor
  · show toString (Int.fdiv (Int.fdiv (now - startedAt * 1000) 1000) 60) ++ ":" ++
        padStart2 (toString (Int.tmod (Int.fdiv (now - startedAt * 1000) 1000) 60)) =
      toString (Int.fdiv (max 0 (Int.fdiv (now - startedAt * 1000) 1000)) 60) ++ ":" ++
        padStart2 (toString (Int.tmod (max 0 (Int.fdiv (now - startedAt * 1000) 1000)) 60))
    rw [max_eq_right hel]
  · intro h125
    show toString (Int.fdiv (Int.fdiv (now - startedAt * 1000) 1000) 60) ++ ":" ++
        padStart2 (toString (Int.tmod (Int.fdiv (now - startedAt * 1000) 1000) 60)) = "2:05"
    rw [h125]
    decide

/-- Witness for the amended C4 at `startedAt = 1`, `now = 126000`. -/
theorem formatRecordingTime_correct_witness :
    formatRecordingTime 1 126000 = formatSpec 1 126000 ∧
    ((126000 : Int) - 1 * 1000 = 125000 → formatRecordingTime 1 126000 = "2:05") :=
  formatRecordingTime_correct 1 126000 (by decide)

/-- Claim C3 (code bug): the start-recording request the client actually
dispatches. Because `CamerasList.tsx` line 111 passes four arguments to the
six-parameter `startRecording`, the JSON body carries the auth token string
as `detection_threshold` (not a numeric threshold) and the request carries
no `Authorization` header at all (the `token` parameter stays `undefined`),
contradicting both the claimed body shape and the claimed authentication. -/
theorem startRequest_token_misbound :
    (dispatchStartRequest "shop1" "Cam1" "tok").body =
      some [("camera_name", .str "Cam1"), ("duration", .num 30),
            ("detection_threshold", .str "tok"), ("analysis_iterations", .num 1)] ∧
    (dispatchStartRequest "shop1" "Cam1" "tok").authHeader = none :=
  ⟨rfl, rfl⟩

/-- Claim C2 counterexample: it is not true that at most one
start/stop/delete command is in flight in every reachable panel state —
confirming a delete while a start is in flight dispatches a second command,
because `handleDeleteConfirm` neither checks nor takes the operation lock. -/
theorem mutualExclusion_counterexample :
    ¬ (∀ (shopId token : String) (st : PanelState),
        Reachable shopId token st → st.inFlight.length ≤ 1) := by
  intro h
  have h2 := h "shop1" "tok" (run "shop1" "tok" mutexTrace initState)
    ⟨mutexTrace, rfl⟩
  revert h2
  decide

/-- Claim C2 as amended: in every reachable panel state at most one start or
stop command is in flight, and none is while the operation lock is free;
delete commands are not serialized by the lock. -/
theorem mutualExclusion_startStop (shopId token : String) (st : PanelState)
    (h : Reachable shopId token st) :
    startStopCount st.inFlight ≤ 1 ∧
    (st.operationInProgress = none → startStopCount st.inFlight = 0) := by
  obtain ⟨es, rfl⟩ := h
  exact lockInv_run shopId token es initState (by decide) (fun _ => by decide)

/-- Witness for the amended C2 at the initial state. -/
theorem mutualExclusion_startStop_witness :
    startStopCount initState.inFlight ≤ 1 ∧
    (initState.operationInProgress = none → startStopCount initState.inFlight = 0) :=
  mutualExclusion_startStop "shop1" "tok" initState ⟨[], rfl⟩

/-- Claim C6 counterexample: a delete attempt on a recording camera is not
always refused without a network call. If the delete dialog was opened
while the camera was idle and a poll then reports it recording, confirming
the (never re-checked) dialog dispatches the delete request. -/
theorem deleteGuard_counterexample :
    ¬ (∀ (shopId token : String) (st : PanelState), Reachable shopId token st →
        ∀ c ∈ st.cameras, c.isRecording = true →
          (applyEvent shopId token (.confirmDelete c.camera.id) st).issuedRequests
              = st.issuedRequests ∧
          c ∈ (applyEvent shopId token (.confirmDelete c.camera.id) st).cameras) := by
  intro h
  have h2 := h "shop1" "tok" (run "shop1" "tok" staleModalTrace initState)
    ⟨staleModalTrace, rfl⟩ camARec (by decide) rfl
  revert h2
  decide

/-- Claim C6 as amended: pressing the delete button of a camera whose
reconciled `isRecording` is true is refused on the client — the button is
disabled, so the click changes nothing: no dialog opens, no network call is
issued, and every camera stays in the in-memory list. The check happens
only at the button, not when an already-open dialog is confirmed. -/
theorem deleteButton_refused_while_recording (shopId token : String) (st : PanelState)
    (id : String) (h : ∀ c ∈ st.cameras, c.camera.id = id → c.isRecording = true) :
    applyEvent shopId token (.clickDelete id) st = st ∧
    (applyEvent shopId token (.clickDelete id) st).issuedRequests = st.issuedRequests ∧
    ∀ c ∈ st.cameras, c ∈ (applyEvent shopId token (.clickDelete id) st).cameras := by
  have he : applyEvent shopId token (.clickDelete id) st = st := by
    show applyClickDelete id st = st
    unfold applyClickDelete
    rw [if_neg]
    rintro ⟨c, hc, hid, hrec, -⟩
    rw [h c hc hid] at hrec
    exact Bool.noConfusion hrec
  exact ⟨he, by rw [he], fun c hc => by rw [he]; exact hc⟩

/-- Witness for the amended C6 on a one-camera recording state. -/
theorem deleteButton_refused_witness :
    applyEvent "shop1" "tok" (.clickDelete "c1") stC6 = stC6 ∧
    (applyEvent "shop1" "tok" (.clickDelete "c1") stC6).issuedRequests
        = stC6.issuedRequests ∧
    ∀ c ∈ stC6.cameras, c ∈ (applyEvent "shop1" "tok" (.clickDelete "c1") stC6).cameras :=
  deleteButton_refused_while_recording "shop1" "tok" stC6 "c1" (by decide)

/-- Claim C7: a failed poll tick (thrown fetch or error response) surfaces
no error — the error cell is untouched — resets the status set to `[]`, and
after the reconciliation this triggers every camera shows
`isRecording = false` while the camera list's identity data is intact. -/
theorem pollFailure_failOpen (shopId token : String) (st : PanelState)
    (o : FetchOutcome (List RecordingStatus)) (htok : token ≠ "")
    (hfail : FetchOutcome.isFailure o = true) :
    (applyFetchRecordingStatus shopId token o st).errorMsg = st.errorMsg ∧
    (applyFetchRecordingStatus shopId token o st).recordingStatuses = [] ∧
    (applyFetchRecordingStatus shopId token o st).cameras.map toCamera
        = st.cameras.map toCamera ∧
    ∀ c ∈ (applyFetchRecordingStatus shopId token o st).cameras, c.isRecording = false := by
  unfold applyFetchRecordingStatus
  rw [if_neg htok]
  cases o with
  | thrown =>
      exact ⟨rfl, rfl, reconcile_nil_toCamera st.cameras, reconcile_nil_isRecording st.cameras⟩
  | ok r em =>
      dsimp only
      split
      · rename_i hcond
        exfalso
        have hem : jsTruthy em = true := hfail
        simp [hem] at hcond
      · exact ⟨rfl, rfl, reconcile_nil_toCamera st.cameras, reconcile_nil_isRecording st.cameras⟩

/-- Witness for C7: a thrown poll on a state with one recording camera. -/
theorem pollFailure_failOpen_witness :
    (applyFetchRecordingStatus "shop1" "tok" .thrown stC7).errorMsg = stC7.errorMsg ∧
    (applyFetchRecordingStatus "shop1" "tok" .thrown stC7).recordingStatuses = [] ∧
    (applyFetchRecordingStatus "shop1" "tok" .thrown stC7).cameras.map toCamera
        = stC7.cameras.map toCamera ∧
    ∀ c ∈ (applyFetchRecordingStatus "shop1" "tok" .thrown stC7).cameras,
      c.isRecording = false :=
  pollFailure_failOpen "shop1" "tok" stC7 .thrown (by decide) rfl

/-- Claim C8 counterexample: a failed camera-list load does not empty the
camera list — `fetchCameras` sets only the error message on its failure
paths, so a previously loaded list is retained in memory. -/
theorem camerasLoadFailure_counterexample :
    ¬ (∀ (shopId token : String) (st : PanelState) (o : FetchOutcome (List ApiCamera)),
        token ≠ "" → FetchOutcome.isFailure o = true →
        (applyFetchCameras shopId token o st).errorMsg.isSome = true ∧
        (applyFetchCameras shopId token o st).cameras = []) := by
  intro h
  have h2 := (h "shop1" "tok" stC8 .thrown (by decide) rfl).2
  revert h2
  decide

/-- Claim C8 as amended: a failed camera-list load surfaces the error (the
error message is set, which makes the component render its error view in
place of the list) but leaves the in-memory camera list unchanged; it is
empty after a failed initial load only because the list starts empty. -/
theorem camerasLoadFailure_keepsList (shopId token : String) (st : PanelState)
    (o : FetchOutcome (List ApiCamera)) (htok : token ≠ "")
    (hfail : FetchOutcome.isFailure o = true) :
    (applyFetchCameras shopId token o st).errorMsg.isSome = true ∧
    (applyFetchCameras shopId token o st).cameras = st.cameras := by
  unfold applyFetchCameras
  rw [if_neg htok]
  cases o with
  | thrown => exact ⟨rfl, rfl⟩
  | ok r em =>
      dsimp only
      split
      · rename_i hcond
        exfalso
        have hem : jsTruthy em = true := hfail
        simp [hem] at hcond
      · exact ⟨rfl, rfl⟩

/-- Witness for the amended C8: a thrown load over a loaded list. -/
theorem camerasLoadFailure_keepsList_witness :
    (applyFetchCameras "shop1" "tok" .thrown stC8).errorMsg.isSome = true ∧
    (applyFetchCameras "shop1" "tok" .thrown stC8).cameras = stC8.cameras :=
  camerasLoadFailure_keepsList "shop1" "tok" stC8 .thrown (by decide) rfl

end Claims

end Guardify
